import Mathlib

/-!
# kosync (`src/api.rs`) — shallow embedding and verification

This file embeds the request handlers of the kosync reading-progress
synchronization service (`src/api.rs`: `auth`, `create_user`, `get_progress`,
`update_progress`) as pure Lean functions, and proves or refutes the frozen
claims about them.

The external collaborators (`defs.rs`, `utils.rs`, `db.rs`) are not part of
the shown source; where a definition comes from the spec rather than the
source, its doc comment says so.  The store is modelled as an in-memory
association-list state together with a fault-injection environment (`Env`)
that says, per operation, whether the store call faults — matching the
collaborator contract `get_user : username -> Result<Option<secret>, Fault>`
etc.  Each handler returns its result together with the resulting store
state, the list of store operations it invoked, and the log lines it emitted,
so that claims about "no store call", "no state committed" and log contents
are directly statable.  Wall-clock time (`now_timestamp`) is passed in as an
explicit `now : Nat` parameter.
-/

namespace Kosync

/-- Modelled from the spec: `defs.rs` `FIELD_LEN_LIMIT`, "a fixed length
limit" on key and value fields.  The spec does not pin the numeric value;
all theorems below are insensitive to it. -/
def FIELD_LEN_LIMIT : Nat := 255

/-- Modelled from the spec: Rust `char::is_control` (Unicode category Cc:
U+0000..U+001F and U+007F..U+009F), used by the validators. -/
def isControlChar (c : Char) : Bool :=
  c.toNat < 32 || (127 ≤ c.toNat && c.toNat ≤ 159)

/-- Modelled from the spec: `utils.rs` `is_valid_field` — "looser check for
opaque values (secrets, device names): non-empty, at most the length limit,
free of control characters".  Lengths are UTF-8 byte lengths, as Rust
`str::len` is. -/
def is_valid_field (s : String) : Bool :=
  !s.isEmpty && s.utf8ByteSize ≤ FIELD_LEN_LIMIT && s.toList.all (fun c => !isControlChar c)

/-- Modelled from the spec: the identifier-safe character set for storage
keys — "letters, digits, and a small set of punctuation deemed safe"
(no control characters, no path separators, no delimiter characters). -/
def isKeySafeChar (c : Char) : Bool :=
  c.isAlphanum || c = '-' || c = '_' || c = '.'

/-- Modelled from the spec: `utils.rs` `is_valid_key_field` — "true iff `s`
is non-empty, at most `FIELD_LEN_LIMIT`, and composed only of characters
from an allowed identifier-safe set". -/
def is_valid_key_field (s : String) : Bool :=
  !s.isEmpty && s.utf8ByteSize ≤ FIELD_LEN_LIMIT && s.toList.all isKeySafeChar

/-- A header value as seen by the handler: either bytes that are not valid
visible text (Rust `HeaderValue::to_str()` returns `Err`), or a string. -/
inductive HeaderValue where
  | invalidText
  | text (s : String)
deriving DecidableEq, Repr

/-- The request header map (first value wins on lookup, as in `HeaderMap::get`). -/
structure Headers where
  entries : List (String × HeaderValue)
deriving DecidableEq, Repr

def Headers.get (h : Headers) (name : String) : Option HeaderValue :=
  (h.entries.find? (fun p => p.1 == name)).map (fun p => p.2)

def Headers.containsKey (h : Headers) (name : String) : Bool :=
  h.entries.any (fun p => p.1 == name)

/-- Rendering of a header value inside a `{:?}` debug log of the header map. -/
def formatHeaderValue : HeaderValue → String
  | .invalidText => "<invalid>"
  | .text s => s

/-- Comma-separated rendering of header entries. -/
def formatHeadersList : List (String × HeaderValue) → String
  | [] => ""
  | [p] => p.1 ++ ": " ++ formatHeaderValue p.2
  | p :: q :: rest => p.1 ++ ": " ++ formatHeaderValue p.2 ++ ", " ++ formatHeadersList (q :: rest)

/-- Rendering of the whole header map inside a `{:?}` debug log: every
header name and its value appear verbatim, as Rust `HeaderMap`s `Debug`
output shows them. -/
def formatHeaders (h : Headers) : String :=
  "[" ++ formatHeadersList h.entries ++ "]"

/-- Modelled from the spec: `defs.rs` `ProgressState` — the per-(user,
document) reading-progress record.  `percentage` is "numeric,
application-defined range, not validated further here"; it is embedded as a
rational since this core only stores and echoes it.  `timestamp` is the
server-assigned seconds-since-epoch, optional in the wire payload. -/
structure ProgressState where
  document : String
  percentage : Rat
  progress_cursor : String
  device : String
  device_id : String
  timestamp : Option Nat
deriving DecidableEq, Repr

/-- Modelled from the spec: `defs.rs` `Error` — the fixed client-visible
failure taxonomy.  The constructors carry no payload: an error response
never contains request data. -/
inductive Error where
  | InvalidRequest
  | UserExists
  | Unauthorized
  | DocumentFieldMissing
  | Internal
deriving DecidableEq, Repr

/-- Modelled from the spec: the external store state — username → secret
credentials and (username, document) → ProgressRecord documents. -/
structure Store where
  users : List (String × String)
  docs : List ((String × String) × ProgressState)
deriving DecidableEq, Repr

def Store.get_user (st : Store) (u : String) : Option String :=
  (st.users.find? (fun p => p.1 == u)).map (fun p => p.2)

def Store.put_user (st : Store) (u k : String) : Store :=
  ⟨(u, k) :: st.users.filter (fun p => p.1 != u), st.docs⟩

def Store.get_doc (st : Store) (u d : String) : Option ProgressState :=
  (st.docs.find? (fun p => p.1.1 == u && p.1.2 == d)).map (fun p => p.2)

def Store.put_doc (st : Store) (u d : String) (r : ProgressState) : Store :=
  ⟨st.users, ((u, d), r) :: st.docs.filter (fun p => !(p.1.1 == u && p.1.2 == d))⟩

/-- Fault-injection environment for one request: which store calls fault
(`Result::Err` from the store collaborator). -/
structure Env where
  get_userFault : Bool
  put_userFault : Bool
  get_docFault : Bool
  put_docFault : Bool
deriving DecidableEq, Repr

/-- `db.get_user`: faults per the environment, else reads the store. -/
def dbGetUser (env : Env) (st : Store) (u : String) : Except Unit (Option String) :=
  if env.get_userFault then .error () else .ok (st.get_user u)

/-- `db.put_user`: faults per the environment, else inserts and returns the
new store state. -/
def dbPutUser (env : Env) (st : Store) (u k : String) : Except Unit Store :=
  if env.put_userFault then .error () else .ok (st.put_user u k)

/-- `db.get_doc`. -/
def dbGetDoc (env : Env) (st : Store) (u d : String) : Except Unit (Option ProgressState) :=
  if env.get_docFault then .error () else .ok (st.get_doc u d)

/-- `db.put_doc`. -/
def dbPutDoc (env : Env) (st : Store) (u d : String) (r : ProgressState) : Except Unit Store :=
  if env.put_docFault then .error () else .ok (st.put_doc u d r)

/-- The store operations a handler can invoke, recorded in invocation order
(an operation is recorded whether or not it faulted). -/
inductive StoreOp where
  | getUser (u : String)
  | putUser (u k : String)
  | getDoc (u d : String)
  | putDoc (u d : String) (r : ProgressState)
deriving DecidableEq, Repr

/-- Modelled from the spec: `utils.rs` `get_remote_addr` — "returns the
value of a trusted proxy header when present and well-formed, else falls
back to the transport-layer peer address".  The peer address is embedded as
an opaque string. -/
def get_remote_addr (headers : Headers) (sockAddr : String) : String :=
  match headers.get "x-real-ip" with
  | some (.text v) => v
  | _ => sockAddr

instance {ε α : Type} [DecidableEq ε] [DecidableEq α] : DecidableEq (Except ε α) := fun x y =>
  match x, y with
  | .ok a, .ok b =>
    if h : a = b then .isTrue (by rw [h]) else .isFalse (by intro hc; cases hc; exact h rfl)
  | .ok _, .error _ => .isFalse (by intro hc; cases hc)
  | .error _, .ok _ => .isFalse (by intro hc; cases hc)
  | .error e, .error f =>
    if h : e = f then .isTrue (by rw [h]) else .isFalse (by intro hc; cases hc; exact h rfl)

/-- Outcome of the `auth` middleware: the admitted principal (the `Authed`
username attached to the request) or the error, plus the store operations
invoked and the log lines emitted. -/
structure AuthOut where
  result : Except Error String
  ops : List StoreOp
  logs : List String
deriving DecidableEq, Repr

/-- The header-credential extractor: the `check` closure of `auth`
(api.rs:36-41).  `headers.get(name).and_then(|v| v.to_str().ok()).filter(|v|
v.len() <= FIELD_LEN_LIMIT && is_valid_field(v))`. -/
def check (headers : Headers) (name : String) : Option String :=
  match headers.get name with
  | some (.text v) =>
      if v.utf8ByteSize ≤ FIELD_LEN_LIMIT && is_valid_field v then some v else none
  | _ => none

/-- The logging address computed by `auth` (api.rs:42-55): if an
`x-real-ip` header is present its text (or `""` when not valid text) is
used; otherwise the `ConnectInfo` peer address from the request extensions
is `unwrap`ped — `none` here models the panic when it is absent. -/
def authAddr (headers : Headers) (connectInfo : Option String) : Option String :=
  if headers.containsKey "x-real-ip" then
    some (match headers.get "x-real-ip" with
          | some (.text v) => v
          | _ => "")
  else
    connectInfo

/-- The `auth` middleware (api.rs:30-79).  `connectInfo` is the
`ConnectInfo<SocketAddr>` request extension when present; `method`, `uri`
and `version` are the request line pieces used only in the access log.  A
`none` result models the panic in the address computation; otherwise the
gate either admits the request with the authenticated username (`.ok user`,
the `Authed(user)` extension) or rejects it with an `Error`. -/
def auth (env : Env) (st : Store) (headers : Headers) (connectInfo : Option String)
    (method uri version : String) : Option AuthOut :=
  match authAddr headers connectInfo with
  | none => none
  | some addr =>
    let infoLog := addr ++ " - " ++ method ++ " " ++ uri ++ " " ++ version
    some (match check headers "x-auth-user", check headers "x-auth-key" with
      | some user, some key =>
        (match dbGetUser env st user with
          | .ok (some k) =>
            if k == key then
              ⟨.ok user, [.getUser user], [infoLog, user ++ " - AUTH - ok"]⟩
            else
              ⟨.error .Unauthorized, [.getUser user],
                [infoLog, user ++ " - AUTH - unauthorized: " ++ formatHeaders headers]⟩
          | .ok none =>
            ⟨.error .Unauthorized, [.getUser user],
              [infoLog, user ++ " - AUTH - unauthorized: " ++ formatHeaders headers]⟩
          | .error _ =>
            ⟨.error .Internal, [.getUser user],
              [infoLog, user ++ " - AUTH - tripped an internal server error: " ++ formatHeaders headers]⟩)
      | _, _ =>
        ⟨.error .Unauthorized, [],
          [infoLog, "N/A - AUTH - no tokens in headers " ++ formatHeaders headers]⟩)

/-- Outcome of `create_user`: result (`.ok username` echoes the created
username, HTTP 201), the resulting store state, the store operations
invoked, and the log lines. -/
structure CreateOut where
  result : Except Error String
  store : Store
  ops : List StoreOp
  logs : List String
deriving DecidableEq, Repr

/-- The `create_user` handler (api.rs:96-126).  Note the source checks the
existing user with `if let Ok(Some(_)) = db.get_user(..)`: only a
successful lookup that finds the user short-circuits to `UserExists`; both
`Ok(None)` and `Err(_)` fall through to `put_user`. -/
def create_user (env : Env) (st : Store) (headers : Headers) (sockAddr : String)
    (username password : String) : CreateOut :=
  let addr := get_remote_addr headers sockAddr
  let log0 := addr ++ " - POST /users/create " ++ formatHeaders headers
  if !(is_valid_key_field username) || !(is_valid_field password) then
    ⟨.error .InvalidRequest, st, [], [log0, "N/A - REGISTER - invalid request"]⟩
  else
    match dbGetUser env st username with
    | .ok (some _) =>
      ⟨.error .UserExists, st, [.getUser username],
        [log0, username ++ " - REGISTER - user already exists"]⟩
    | _ =>
      match dbPutUser env st username password with
      | .ok st2 =>
        ⟨.ok username, st2, [.getUser username, .putUser username password],
          [log0, username ++ " - REGISTER - ok"]⟩
      | .error _ =>
        ⟨.error .Internal, st, [.getUser username, .putUser username password],
          [log0, username ++ " - REGISTER - tripped an internal server error"]⟩

/-- A successful `get_progress` response: either the stored record
serialized in full, or the minimal `{"document": doc}` body when no record
exists. -/
inductive GetResp where
  | record (r : ProgressState)
  | docOnly (document : String)
deriving DecidableEq, Repr

/-- Outcome of `get_progress` (read-only: no store state returned). -/
structure GetOut where
  result : Except Error GetResp
  ops : List StoreOp
  logs : List String
deriving DecidableEq, Repr

/-- The `get_progress` handler (api.rs:130-155), for authenticated
principal `user` and path parameter `doc`. -/
def get_progress (env : Env) (st : Store) (user doc : String) : GetOut :=
  if !(is_valid_key_field doc) then
    ⟨.error .DocumentFieldMissing, [], [user ++ " - PULL - document field not provided"]⟩
  else
    match dbGetDoc env st user doc with
    | .ok (some value) =>
      ⟨.ok (.record value), [.getDoc user doc],
        [user ++ " - PULL - " ++ doc ++ " <= " ++ toString value.percentage ++ " on " ++ value.device]⟩
    | .ok none =>
      ⟨.ok (.docOnly doc), [.getDoc user doc], [user ++ " - PULL - " ++ doc ++ " <= None"]⟩
    | .error _ =>
      ⟨.error .Internal, [.getDoc user doc], [user ++ " - PULL - tripped an internal server error"]⟩

/-- The success body of `update_progress`: exactly the two fields of
`json!({"document": .., "timestamp": ..})`. -/
structure PushResp where
  document : String
  timestamp : Option Nat
deriving DecidableEq, Repr

/-- Outcome of `update_progress`. -/
structure PushOut where
  result : Except Error PushResp
  store : Store
  ops : List StoreOp
  logs : List String
deriving DecidableEq, Repr

/-- The `update_progress` handler (api.rs:157-178), for authenticated
principal `user`, request payload `data` and current server time `now`
(the value of `now_timestamp()`).  The handler first overwrites
`data.timestamp` with `Some(now_timestamp())`, then upserts the record
keyed by `(user, data.document)`. -/
def update_progress (env : Env) (st : Store) (user : String) (data : ProgressState)
    (now : Nat) : PushOut :=
  let data2 : ProgressState := { data with timestamp := some now }
  match dbPutDoc env st user data2.document data2 with
  | .ok st2 =>
    ⟨.ok ⟨data2.document, data2.timestamp⟩, st2, [.putDoc user data2.document data2],
      [user ++ " - PUSH - " ++ data2.document ++ " => " ++ toString data2.percentage ++ " on " ++ data2.device]⟩
  | .error _ =>
    ⟨.error .Internal, st, [.putDoc user data2.document data2],
      [user ++ " - PUSH - tripped an internal server error"]⟩

/-! ## Helper lemmas -/

/-- A freshly upserted document is what a subsequent lookup of the same
`(user, document)` key returns. -/
theorem Store.get_doc_put_doc_self (st : Store) (u d : String) (r : ProgressState) :
    (st.put_doc u d r).get_doc u d = some r := by
  simp [Store.put_doc, Store.get_doc, List.find?]

/-! ## Claims -/

/-- C3: for every authenticated progress push (fault-free put), the
timestamp in the upserted record and in the response is the server time
`now`, the response body holds exactly the document id and that timestamp,
and the outcome is independent of any client-supplied timestamp. -/
theorem update_progress_server_timestamp (env : Env) (st : Store) (user : String)
    (data : ProgressState) (now : Nat) (ts : Option Nat)
    (hput : env.put_docFault = false) :
    (update_progress env st user data now).result = .ok ⟨data.document, some now⟩
    ∧ (update_progress env st user data now).store
        = st.put_doc user data.document { data with timestamp := some now }
    ∧ (update_progress env st user data now).ops
        = [.putDoc user data.document { data with timestamp := some now }]
    ∧ update_progress env st user { data with timestamp := ts } now
        = update_progress env st user data now := by
  simp [update_progress, dbPutDoc, hput]

theorem update_progress_server_timestamp_witness :
    Env.put_docFault ⟨false, false, false, false⟩ = false
    ∧ (update_progress ⟨false, false, false, false⟩ ⟨[], []⟩ "alice"
        ⟨"doc1", 42, "p1", "Kobo", "abc", some 7⟩ 100).result = .ok ⟨"doc1", some 100⟩
    ∧ update_progress ⟨false, false, false, false⟩ ⟨[], []⟩ "alice"
        ⟨"doc1", 42, "p1", "Kobo", "abc", some 99⟩ 100
      = update_progress ⟨false, false, false, false⟩ ⟨[], []⟩ "alice"
        ⟨"doc1", 42, "p1", "Kobo", "abc", some 7⟩ 100 :=
  ⟨by decide,
   (update_progress_server_timestamp ⟨false, false, false, false⟩ ⟨[], []⟩ "alice"
      ⟨"doc1", 42, "p1", "Kobo", "abc", some 7⟩ 100 (some 99) (by decide)).1,
   (update_progress_server_timestamp ⟨false, false, false, false⟩ ⟨[], []⟩ "alice"
      ⟨"doc1", 42, "p1", "Kobo", "abc", some 7⟩ 100 (some 99) (by decide)).2.2.2⟩

/-- C7: an authenticated pull of a valid document id with no stored record
(and a fault-free lookup) succeeds with a body holding only the echoed
document id. -/
theorem get_progress_not_found_echoes_document (env : Env) (st : Store) (user doc : String)
    (hdoc : is_valid_key_field doc = true)
    (hfault : env.get_docFault = false)
    (hnone : st.get_doc user doc = none) :
    (get_progress env st user doc).result = .ok (.docOnly doc) := by
  simp [get_progress, dbGetDoc, hdoc, hfault, hnone]

theorem get_progress_not_found_echoes_document_witness :
    is_valid_key_field "doc1" = true
    ∧ Env.get_docFault ⟨false, false, false, false⟩ = false
    ∧ Store.get_doc ⟨[], []⟩ "bob" "doc1" = none
    ∧ (get_progress ⟨false, false, false, false⟩ ⟨[], []⟩ "bob" "doc1").result
        = .ok (.docOnly "doc1") :=
  ⟨by decide, by decide, by decide,
   get_progress_not_found_echoes_document ⟨false, false, false, false⟩ ⟨[], []⟩ "bob" "doc1"
     (by decide) (by decide) (by decide)⟩

/-- C9: the push handler never validates the pushed document id: a payload
whose `document` fails `is_valid_key_field` is still upserted and the push
succeeds, but a subsequent pull of that document id is rejected with
`DocumentFieldMissing` instead of returning the stored record. -/
theorem push_unvalidated_document_pull_rejects (env : Env) (st : Store) (user : String)
    (data : ProgressState) (now : Nat)
    (hdoc : is_valid_key_field data.document = false)
    (hput : env.put_docFault = false) :
    (update_progress env st user data now).result = .ok ⟨data.document, some now⟩
    ∧ (update_progress env st user data now).store.get_doc user data.document
        = some { data with timestamp := some now }
    ∧ (get_progress env (update_progress env st user data now).store user data.document).result
        = .error .DocumentFieldMissing := by
  refine ⟨?_, ?_, ?_⟩
  · simp [update_progress, dbPutDoc, hput]
  · simp [update_progress, dbPutDoc, hput, Store.get_doc_put_doc_self]
  · simp [get_progress, hdoc]

theorem push_unvalidated_document_pull_rejects_witness :
    is_valid_key_field "" = false
    ∧ Env.put_docFault ⟨false, false, false, false⟩ = false
    ∧ (update_progress ⟨false, false, false, false⟩ ⟨[], []⟩ "alice"
        ⟨"", 42, "p1", "Kobo", "abc", none⟩ 100).result = .ok ⟨"", some 100⟩
    ∧ (get_progress ⟨false, false, false, false⟩
        (update_progress ⟨false, false, false, false⟩ ⟨[], []⟩ "alice"
          ⟨"", 42, "p1", "Kobo", "abc", none⟩ 100).store "alice" "").result
      = .error .DocumentFieldMissing :=
  ⟨by decide, by decide,
   (push_unvalidated_document_pull_rejects ⟨false, false, false, false⟩ ⟨[], []⟩ "alice"
      ⟨"", 42, "p1", "Kobo", "abc", none⟩ 100 (by decide) (by decide)).1,
   (push_unvalidated_document_pull_rejects ⟨false, false, false, false⟩ ⟨[], []⟩ "alice"
      ⟨"", 42, "p1", "Kobo", "abc", none⟩ 100 (by decide) (by decide)).2.2⟩

/-- C10: with no `x-real-ip` header and no `ConnectInfo` extension the auth
middleware panics while computing the address to log (modelled as `none`);
when `x-real-ip` is present the gate's behaviour never consults the
transport peer address. -/
theorem auth_addr_panic_and_real_ip_independence (env : Env) (st : Store) (headers : Headers)
    (method uri version : String) :
    (headers.containsKey "x-real-ip" = false →
      auth env st headers none method uri version = none)
    ∧ (headers.containsKey "x-real-ip" = true →
      ∀ ci₁ ci₂ : Option String,
        auth env st headers ci₁ method uri version
          = auth env st headers ci₂ method uri version) := by
  constructor
  · intro h
    simp [auth, authAddr, h]
  · intro h ci₁ ci₂
    simp [auth, authAddr, h]

theorem auth_addr_panic_and_real_ip_independence_witness :
    Headers.containsKey ⟨[]⟩ "x-real-ip" = false
    ∧ auth ⟨false, false, false, false⟩ ⟨[], []⟩ ⟨[]⟩ none "GET" "/users/auth" "HTTP/1.1" = none :=
  ⟨by decide,
   (auth_addr_panic_and_real_ip_independence ⟨false, false, false, false⟩ ⟨[], []⟩ ⟨[]⟩
      "GET" "/users/auth" "HTTP/1.1").1 (by decide)⟩

/-- C2: when both auth headers pass the field checks and the address is
computable, the gate answers `Internal` exactly when the credential lookup
itself faults; a successful lookup that misses the user, or finds a stored
secret not byte-equal to the presented key, yields `Unauthorized`. -/
theorem auth_mismatch_unauthorized_internal_iff_fault (env : Env) (st : Store)
    (headers : Headers) (ci : Option String) (method uri version user key addr : String)
    (huser : check headers "x-auth-user" = some user)
    (hkey : check headers "x-auth-key" = some key)
    (haddr : authAddr headers ci = some addr) :
    ((auth env st headers ci method uri version).map AuthOut.result
        = some (.error .Internal) ↔ env.get_userFault = true)
    ∧ (env.get_userFault = false →
        (st.get_user user = none ∨ ∃ k, st.get_user user = some k ∧ k ≠ key) →
        (auth env st headers ci method uri version).map AuthOut.result
          = some (.error .Unauthorized)) := by
  cases hf : env.get_userFault with
  | true =>
    refine ⟨?_, ?_⟩
    · simp [auth, haddr, huser, hkey, dbGetUser, hf]
    · intro h
      simp at h
  | false =>
    refine ⟨?_, ?_⟩
    · cases hg : st.get_user user with
      | none => simp [auth, haddr, huser, hkey, dbGetUser, hf, hg]
      | some k =>
        by_cases hk : k = key
        · simp [auth, haddr, huser, hkey, dbGetUser, hf, hg, hk]
        · simp [auth, haddr, huser, hkey, dbGetUser, hf, hg, hk]
    · intro _ hdisj
      rcases hdisj with hg | ⟨k, hg, hk⟩
      · simp [auth, haddr, huser, hkey, dbGetUser, hf, hg]
      · simp [auth, haddr, huser, hkey, dbGetUser, hf, hg, hk]

theorem auth_mismatch_unauthorized_internal_iff_fault_witness :
    check ⟨[("x-auth-user", .text "alice"), ("x-auth-key", .text "wrong")]⟩ "x-auth-user"
        = some "alice"
    ∧ check ⟨[("x-auth-user", .text "alice"), ("x-auth-key", .text "wrong")]⟩ "x-auth-key"
        = some "wrong"
    ∧ authAddr ⟨[("x-auth-user", .text "alice"), ("x-auth-key", .text "wrong")]⟩
        (some "9.9.9.9") = some "9.9.9.9"
    ∧ (auth ⟨false, false, false, false⟩ ⟨[("alice", "right")], []⟩
        ⟨[("x-auth-user", .text "alice"), ("x-auth-key", .text "wrong")]⟩
        (some "9.9.9.9") "GET" "/users/auth" "HTTP/1.1").map AuthOut.result
      = some (.error .Unauthorized) :=
  ⟨by decide, by decide, by decide,
   (auth_mismatch_unauthorized_internal_iff_fault ⟨false, false, false, false⟩
      ⟨[("alice", "right")], []⟩
      ⟨[("x-auth-user", .text "alice"), ("x-auth-key", .text "wrong")]⟩
      (some "9.9.9.9") "GET" "/users/auth" "HTTP/1.1" "alice" "wrong" "9.9.9.9"
      (by decide) (by decide) (by decide)).2 (by decide)
      (Or.inr ⟨"right", by decide, by decide⟩)⟩

/-- The ways an auth header can fail the gate's `check`: absent, present
but not valid text, longer than `FIELD_LEN_LIMIT`, or failing
`is_valid_field`. -/
def headerFails (h : Headers) (name : String) : Prop :=
  h.get name = none
  ∨ h.get name = some .invalidText
  ∨ ∃ v, h.get name = some (.text v)
      ∧ (FIELD_LEN_LIMIT < v.utf8ByteSize ∨ is_valid_field v = false)

/-- Each failure mode makes the `check` closure yield `none`. -/
theorem headerFails_check_none {h : Headers} {name : String}
    (hf : headerFails h name) : check h name = none := by
  rcases hf with h1 | h1 | ⟨v, hv, hbad⟩
  · simp [check, h1]
  · simp [check, h1]
  · rcases hbad with hlen | hval
    · simp [check, hv, Nat.not_le.mpr hlen]
    · simp [check, hv, hval]

/-- C5: a request whose `x-auth-user` or `x-auth-key` header is absent, not
valid text, over-long, or invalid is rejected with `Unauthorized` before
any credential-store call (provided the log address is computable, cf.
C10's panic). -/
theorem auth_malformed_header_no_store_call (env : Env) (st : Store) (headers : Headers)
    (ci : Option String) (method uri version addr : String)
    (haddr : authAddr headers ci = some addr)
    (hbad : headerFails headers "x-auth-user" ∨ headerFails headers "x-auth-key") :
    (auth env st headers ci method uri version).map AuthOut.result
        = some (.error .Unauthorized)
    ∧ (auth env st headers ci method uri version).map AuthOut.ops = some [] := by
  cases hbad with
  | inl h =>
    have hnone := headerFails_check_none h
    cases hchk : check headers "x-auth-key" <;> simp [auth, haddr, hnone, hchk]
  | inr h =>
    have hnone := headerFails_check_none h
    cases hchk : check headers "x-auth-user" <;> simp [auth, haddr, hnone, hchk]

theorem auth_malformed_header_no_store_call_witness :
    authAddr ⟨[("x-auth-key", .text "k1")]⟩ (some "1.1.1.1") = some "1.1.1.1"
    ∧ (headerFails ⟨[("x-auth-key", .text "k1")]⟩ "x-auth-user"
        ∨ headerFails ⟨[("x-auth-key", .text "k1")]⟩ "x-auth-key")
    ∧ (auth ⟨false, false, false, false⟩ ⟨[("alice", "s1")], []⟩ ⟨[("x-auth-key", .text "k1")]⟩
        (some "1.1.1.1") "GET" "/users/auth" "HTTP/1.1").map AuthOut.result
      = some (.error .Unauthorized)
    ∧ (auth ⟨false, false, false, false⟩ ⟨[("alice", "s1")], []⟩ ⟨[("x-auth-key", .text "k1")]⟩
        (some "1.1.1.1") "GET" "/users/auth" "HTTP/1.1").map AuthOut.ops = some [] :=
  ⟨by decide, Or.inl (Or.inl (by decide)),
   (auth_malformed_header_no_store_call ⟨false, false, false, false⟩ ⟨[("alice", "s1")], []⟩
      ⟨[("x-auth-key", .text "k1")]⟩ (some "1.1.1.1") "GET" "/users/auth" "HTTP/1.1" "1.1.1.1"
      (by decide) (Or.inl (Or.inl (by decide)))).1,
   (auth_malformed_header_no_store_call ⟨false, false, false, false⟩ ⟨[("alice", "s1")], []⟩
      ⟨[("x-auth-key", .text "k1")]⟩ (some "1.1.1.1") "GET" "/users/auth" "HTTP/1.1" "1.1.1.1"
      (by decide) (Or.inl (Or.inl (by decide)))).2⟩

/-- C1 counterexample: with a faulting `get_user` and valid fields, the
account-creation handler does not return `Internal` and does call
`put_user`, committing state: `if let Ok(Some(_))` treats the fault like
"user absent" and falls through to the insert. -/
theorem create_user_lookup_fault_commits_cex :
    (create_user ⟨true, false, false, false⟩ ⟨[], []⟩ ⟨[]⟩ "1.2.3.4" "alice" "pw").result
        ≠ .error .Internal
    ∧ StoreOp.putUser "alice" "pw"
        ∈ (create_user ⟨true, false, false, false⟩ ⟨[], []⟩ ⟨[]⟩ "1.2.3.4" "alice" "pw").ops
    ∧ (create_user ⟨true, false, false, false⟩ ⟨[], []⟩ ⟨[]⟩ "1.2.3.4" "alice" "pw").store
        ≠ ⟨[], []⟩ := by
  decide

/-- C1 amended: on a `get_user` fault with valid fields, `create_user`
proceeds as if the user were absent and calls `put_user`; it answers
`Internal` only when `put_user` itself faults (and then commits nothing),
otherwise it commits the insert and returns success. -/
theorem create_user_lookup_fault_behavior (env : Env) (st : Store) (headers : Headers)
    (sockAddr username password : String)
    (hu : is_valid_key_field username = true)
    (hp : is_valid_field password = true)
    (hget : env.get_userFault = true) :
    StoreOp.putUser username password
        ∈ (create_user env st headers sockAddr username password).ops
    ∧ (env.put_userFault = false →
        (create_user env st headers sockAddr username password).result = .ok username
        ∧ (create_user env st headers sockAddr username password).store
            = st.put_user username password)
    ∧ (env.put_userFault = true →
        (create_user env st headers sockAddr username password).result = .error .Internal
        ∧ (create_user env st headers sockAddr username password).store = st) := by
  cases hpf : env.put_userFault <;>
    simp [create_user, dbGetUser, dbPutUser, hu, hp, hget, hpf]

theorem create_user_lookup_fault_behavior_witness :
    is_valid_key_field "alice" = true
    ∧ is_valid_field "pw" = true
    ∧ Env.get_userFault ⟨true, false, false, false⟩ = true
    ∧ StoreOp.putUser "alice" "pw"
        ∈ (create_user ⟨true, false, false, false⟩ ⟨[], []⟩ ⟨[]⟩ "1.2.3.4" "alice" "pw").ops
    ∧ (create_user ⟨true, false, false, false⟩ ⟨[], []⟩ ⟨[]⟩ "1.2.3.4" "alice" "pw").result
        = .ok "alice" :=
  ⟨by decide, by decide, by decide,
   (create_user_lookup_fault_behavior ⟨true, false, false, false⟩ ⟨[], []⟩ ⟨[]⟩
      "1.2.3.4" "alice" "pw" (by decide) (by decide) (by decide)).1,
   ((create_user_lookup_fault_behavior ⟨true, false, false, false⟩ ⟨[], []⟩ ⟨[]⟩
      "1.2.3.4" "alice" "pw" (by decide) (by decide) (by decide)).2.1 (by decide)).1⟩

/-- C4 counterexample: pushing a record whose document id fails the key
check (here `"a/b"`, containing a path separator) succeeds, but pulling the
same `(user, document)` pair immediately afterwards with a fault-free store
returns `DocumentFieldMissing`, not the pushed record. -/
theorem push_pull_roundtrip_cex :
    (update_progress ⟨false, false, false, false⟩ ⟨[], []⟩ "bob"
        ⟨"a/b", 7, "cur", "Kindle", "dev7", none⟩ 50).result = .ok ⟨"a/b", some 50⟩
    ∧ (get_progress ⟨false, false, false, false⟩
        (update_progress ⟨false, false, false, false⟩ ⟨[], []⟩ "bob"
          ⟨"a/b", 7, "cur", "Kindle", "dev7", none⟩ 50).store "bob" "a/b").result
      = .error .DocumentFieldMissing := by
  decide

/-- C4 amended: for every authenticated user and every progress record
whose document id passes `is_valid_key_field`, pushing then pulling the
same `(user, document)` pair over a fault-free store returns the pushed
`percentage`, `progress_cursor`, `device` and `device_id`, with the
server-assigned timestamp `now`, which lies between the bounds `t0 ≤ now`
and `now ≤ t1` taken just before and just after the push. -/
theorem push_pull_roundtrip_valid_doc (env : Env) (st : Store) (user : String)
    (data : ProgressState) (now t0 t1 : Nat)
    (hdoc : is_valid_key_field data.document = true)
    (hput : env.put_docFault = false)
    (hgetd : env.get_docFault = false)
    (h0 : t0 ≤ now) (h1 : now ≤ t1) :
    ∃ r : ProgressState,
      (get_progress env (update_progress env st user data now).store user data.document).result
          = .ok (.record r)
      ∧ r.percentage = data.percentage
      ∧ r.progress_cursor = data.progress_cursor
      ∧ r.device = data.device
      ∧ r.device_id = data.device_id
      ∧ r.timestamp = some now
      ∧ (∀ ts, r.timestamp = some ts → t0 ≤ ts ∧ ts ≤ t1) := by
  refine ⟨{ data with timestamp := some now }, ?_, rfl, rfl, rfl, rfl, rfl, ?_⟩
  · simp [get_progress, hdoc, dbGetDoc, hgetd, update_progress, dbPutDoc, hput,
      Store.get_doc_put_doc_self]
  · intro ts hts
    have h2 : now = ts := by simpa using hts
    subst h2
    exact ⟨h0, h1⟩

theorem push_pull_roundtrip_valid_doc_witness :
    is_valid_key_field "doc9" = true
    ∧ (40 : Nat) ≤ 50 ∧ (50 : Nat) ≤ 60
    ∧ ∃ r : ProgressState,
        (get_progress ⟨false, false, false, false⟩
            (update_progress ⟨false, false, false, false⟩ ⟨[], []⟩ "carol"
              ⟨"doc9", 3, "cur9", "Boox", "dev9", some 1⟩ 50).store "carol" "doc9").result
          = .ok (.record r)
        ∧ r.percentage = 3
        ∧ r.progress_cursor = "cur9"
        ∧ r.device = "Boox"
        ∧ r.device_id = "dev9"
        ∧ r.timestamp = some 50
        ∧ (∀ ts, r.timestamp = some ts → 40 ≤ ts ∧ ts ≤ 60) :=
  ⟨by decide, by decide, by decide,
   push_pull_roundtrip_valid_doc ⟨false, false, false, false⟩ ⟨[], []⟩ "carol"
     ⟨"doc9", 3, "cur9", "Boox", "dev9", some 1⟩ 50 40 60
     (by decide) (by decide) (by decide) (by decide) (by decide)⟩

/-! ## Header helper lemmas for the auth-gate claims -/

/-- A field-valid string is within the length limit. -/
theorem is_valid_field_len {s : String} (h : is_valid_field s = true) :
    s.utf8ByteSize ≤ FIELD_LEN_LIMIT := by
  unfold is_valid_field at h
  simp [Bool.and_eq_true] at h
  exact h.1.2

/-- On the canonical two-header credential map, `check` extracts a
field-valid `x-auth-user`. -/
theorem check_two_user (u kv : String) (hu : is_valid_field u = true) :
    check ⟨[("x-auth-user", .text u), ("x-auth-key", .text kv)]⟩ "x-auth-user" = some u := by
  simp [check, Headers.get, List.find?, is_valid_field_len hu, hu]

/-- On the canonical two-header credential map, `check` extracts a
field-valid `x-auth-key`. -/
theorem check_two_key (u kv : String) (hk : is_valid_field kv = true) :
    check ⟨[("x-auth-user", .text u), ("x-auth-key", .text kv)]⟩ "x-auth-key" = some kv := by
  simp [check, Headers.get, List.find?, is_valid_field_len hk, hk]

/-- The canonical two-header credential map carries no `x-real-ip`, so the
log address falls back to the peer address. -/
theorem authAddr_two (u kv a : String) :
    authAddr ⟨[("x-auth-user", .text u), ("x-auth-key", .text kv)]⟩ (some a) = some a := by
  simp [authAddr, Headers.containsKey]

/-- C6 counterexample: a username already present in the store, re-created
with an invalid secret (here the empty password), is answered with
`InvalidRequest`, not `UserExists` — the field validation runs before the
duplicate check, so "any secret" fails. -/
theorem duplicate_user_any_secret_cex :
    Store.get_user ⟨[("alice", "s1")], []⟩ "alice" = some "s1"
    ∧ (create_user ⟨false, false, false, false⟩ ⟨[("alice", "s1")], []⟩ ⟨[]⟩
        "1.2.3.4" "alice" "").result = .error .InvalidRequest
    ∧ (create_user ⟨false, false, false, false⟩ ⟨[("alice", "s1")], []⟩ ⟨[]⟩
        "1.2.3.4" "alice" "").result ≠ .error .UserExists := by
  decide

/-- C6 amended: for every username already present in the store (with a
fault-free lookup), account creation with that username and any *field-valid*
secret returns `UserExists`, performs no `put_user` call and leaves the
store unchanged; when the username and stored secret also pass the auth
header checks, the old secret still authenticates and a different new
secret does not. -/
theorem duplicate_user_exists_no_overwrite (env : Env) (st : Store) (headers : Headers)
    (sockAddr username oldSecret newSecret : String) (a method uri version : String)
    (hu : is_valid_key_field username = true)
    (hnew : is_valid_field newSecret = true)
    (hget : env.get_userFault = false)
    (hpresent : st.get_user username = some oldSecret) :
    (create_user env st headers sockAddr username newSecret).result = .error .UserExists
    ∧ (create_user env st headers sockAddr username newSecret).store = st
    ∧ (∀ u k, StoreOp.putUser u k ∉ (create_user env st headers sockAddr username newSecret).ops)
    ∧ (is_valid_field username = true → is_valid_field oldSecret = true →
        (auth env st ⟨[("x-auth-user", .text username), ("x-auth-key", .text oldSecret)]⟩
            (some a) method uri version).map AuthOut.result = some (.ok username))
    ∧ (is_valid_field username = true → newSecret ≠ oldSecret →
        (auth env st ⟨[("x-auth-user", .text username), ("x-auth-key", .text newSecret)]⟩
            (some a) method uri version).map AuthOut.result
          = some (.error .Unauthorized)) := by
  refine ⟨?_, ?_, ?_, ?_, ?_⟩
  · simp [create_user, dbGetUser, hget, hpresent, hu, hnew]
  · simp [create_user, dbGetUser, hget, hpresent, hu, hnew]
  · intro u k
    simp [create_user, dbGetUser, hget, hpresent, hu, hnew]
  · intro huv hov
    simp [auth, authAddr_two, check_two_user username oldSecret huv,
      check_two_key username oldSecret hov, dbGetUser, hget, hpresent]
  · intro huv hne
    have hbeq : (oldSecret == newSecret) = false := beq_eq_false_iff_ne.mpr (Ne.symm hne)
    simp [auth, authAddr_two, check_two_user username newSecret huv,
      check_two_key username newSecret hnew, dbGetUser, hget, hpresent, hbeq]

theorem duplicate_user_exists_no_overwrite_witness :
    is_valid_key_field "alice" = true
    ∧ is_valid_field "s2" = true
    ∧ Env.get_userFault ⟨false, false, false, false⟩ = false
    ∧ Store.get_user ⟨[("alice", "s1")], []⟩ "alice" = some "s1"
    ∧ (create_user ⟨false, false, false, false⟩ ⟨[("alice", "s1")], []⟩ ⟨[]⟩
        "1.2.3.4" "alice" "s2").result = .error .UserExists
    ∧ (create_user ⟨false, false, false, false⟩ ⟨[("alice", "s1")], []⟩ ⟨[]⟩
        "1.2.3.4" "alice" "s2").store = ⟨[("alice", "s1")], []⟩
    ∧ (auth ⟨false, false, false, false⟩ ⟨[("alice", "s1")], []⟩
        ⟨[("x-auth-user", .text "alice"), ("x-auth-key", .text "s1")]⟩
        (some "2.2.2.2") "GET" "/users/auth" "HTTP/1.1").map AuthOut.result
      = some (.ok "alice")
    ∧ (auth ⟨false, false, false, false⟩ ⟨[("alice", "s1")], []⟩
        ⟨[("x-auth-user", .text "alice"), ("x-auth-key", .text "s2")]⟩
        (some "2.2.2.2") "GET" "/users/auth" "HTTP/1.1").map AuthOut.result
      = some (.error .Unauthorized) :=
  ⟨by decide, by decide, by decide, by decide,
   (duplicate_user_exists_no_overwrite ⟨false, false, false, false⟩ ⟨[("alice", "s1")], []⟩
      ⟨[]⟩ "1.2.3.4" "alice" "s1" "s2" "2.2.2.2" "GET" "/users/auth" "HTTP/1.1"
      (by decide) (by decide) (by decide) (by decide)).1,
   (duplicate_user_exists_no_overwrite ⟨false, false, false, false⟩ ⟨[("alice", "s1")], []⟩
      ⟨[]⟩ "1.2.3.4" "alice" "s1" "s2" "2.2.2.2" "GET" "/users/auth" "HTTP/1.1"
      (by decide) (by decide) (by decide) (by decide)).2.1,
   (duplicate_user_exists_no_overwrite ⟨false, false, false, false⟩ ⟨[("alice", "s1")], []⟩
      ⟨[]⟩ "1.2.3.4" "alice" "s1" "s2" "2.2.2.2" "GET" "/users/auth" "HTTP/1.1"
      (by decide) (by decide) (by decide) (by decide)).2.2.2.1 (by decide) (by decide),
   (duplicate_user_exists_no_overwrite ⟨false, false, false, false⟩ ⟨[("alice", "s1")], []⟩
      ⟨[]⟩ "1.2.3.4" "alice" "s1" "s2" "2.2.2.2" "GET" "/users/auth" "HTTP/1.1"
      (by decide) (by decide) (by decide) (by decide)).2.2.2.2 (by decide) (by decide)⟩

/-- Decidable substring test: `needle` occurs contiguously in `hay`. -/
def strContainsSub (hay needle : String) : Bool :=
  (List.range (hay.length + 1)).any (fun i => needle.toList.isPrefixOf (hay.toList.drop i))

/-- C8 counterexample: an authenticated-path failure (mismatched key) logs
the full header map, so the emitted log entry contains the `x-auth-key`
secret value (`"hunter2"`) verbatim. -/
theorem auth_failure_log_leaks_secret_cex :
    (auth ⟨false, false, false, false⟩ ⟨[("carol", "topsecret")], []⟩
        ⟨[("x-auth-user", .text "carol"), ("x-auth-key", .text "hunter2")]⟩
        (some "3.3.3.3") "GET" "/users/auth" "HTTP/1.1").map AuthOut.result
      = some (.error .Unauthorized)
    ∧ (((auth ⟨false, false, false, false⟩ ⟨[("carol", "topsecret")], []⟩
        ⟨[("x-auth-user", .text "carol"), ("x-auth-key", .text "hunter2")]⟩
        (some "3.3.3.3") "GET" "/users/auth" "HTTP/1.1").map AuthOut.logs).getD []).any
        (fun l => strContainsSub l "hunter2") = true := by
  decide

/-- C8 amended: on a mismatched-key failure the gate emits a log entry that
*does* contain the `x-auth-key` value (the full header map is logged), while
the error returned to the caller is the payload-free constant
`Unauthorized` — no response or error echoes a secret. -/
theorem auth_failure_log_contains_key (env : Env) (st : Store)
    (u kv k0 a method uri version : String)
    (hu : is_valid_field u = true)
    (hk : is_valid_field kv = true)
    (hget : env.get_userFault = false)
    (hstored : st.get_user u = some k0)
    (hne : k0 ≠ kv) :
    (auth env st ⟨[("x-auth-user", .text u), ("x-auth-key", .text kv)]⟩ (some a)
        method uri version).map AuthOut.result = some (.error .Unauthorized)
    ∧ ∃ pre post,
        (auth env st ⟨[("x-auth-user", .text u), ("x-auth-key", .text kv)]⟩ (some a)
            method uri version).map AuthOut.logs
          = some [a ++ " - " ++ method ++ " " ++ uri ++ " " ++ version,
                  pre ++ kv ++ post] := by
  have hbeq : (k0 == kv) = false := beq_eq_false_iff_ne.mpr hne
  constructor
  · simp [auth, authAddr_two, check_two_user u kv hu, check_two_key u kv hk,
      dbGetUser, hget, hstored, hbeq]
  · refine ⟨u ++ " - AUTH - unauthorized: [x-auth-user: " ++ u ++ ", x-auth-key: ", "]", ?_⟩
    simp [auth, authAddr_two, check_two_user u kv hu, check_two_key u kv hk,
      dbGetUser, hget, hstored, hbeq, formatHeaders, formatHeadersList,
      formatHeaderValue, String.append_assoc]
    have h1 : (" - AUTH - unauthorized: " : String) ++ ("[" ++ "x-auth-user: ")
        = " - AUTH - unauthorized: [x-auth-user: " := rfl
    have h2 : (", " : String) ++ "x-auth-key: " = ", x-auth-key: " := rfl
    rw [← h1, ← h2]
    simp only [String.append_assoc]

theorem auth_failure_log_contains_key_witness :
    is_valid_field "carol" = true
    ∧ is_valid_field "hunter9" = true
    ∧ Env.get_userFault ⟨false, false, false, false⟩ = false
    ∧ Store.get_user ⟨[("carol", "top9")], []⟩ "carol" = some "top9"
    ∧ "top9" ≠ "hunter9"
    ∧ (auth ⟨false, false, false, false⟩ ⟨[("carol", "top9")], []⟩
        ⟨[("x-auth-user", .text "carol"), ("x-auth-key", .text "hunter9")]⟩
        (some "4.4.4.4") "PUT" "/syncs/progress" "HTTP/1.1").map AuthOut.result
      = some (.error .Unauthorized)
    ∧ ∃ pre post,
        (auth ⟨false, false, false, false⟩ ⟨[("carol", "top9")], []⟩
            ⟨[("x-auth-user", .text "carol"), ("x-auth-key", .text "hunter9")]⟩
            (some "4.4.4.4") "PUT" "/syncs/progress" "HTTP/1.1").map AuthOut.logs
          = some ["4.4.4.4" ++ " - " ++ "PUT" ++ " " ++ "/syncs/progress" ++ " " ++ "HTTP/1.1",
                  pre ++ "hunter9" ++ post] :=
  ⟨by decide, by decide, by decide, by decide, by decide,
   (auth_failure_log_contains_key ⟨false, false, false, false⟩ ⟨[("carol", "top9")], []⟩
      "carol" "hunter9" "top9" "4.4.4.4" "PUT" "/syncs/progress" "HTTP/1.1"
      (by decide) (by decide) (by decide) (by decide) (by decide)).1,
   (auth_failure_log_contains_key ⟨false, false, false, false⟩ ⟨[("carol", "top9")], []⟩
      "carol" "hunter9" "top9" "4.4.4.4" "PUT" "/syncs/progress" "HTTP/1.1"
      (by decide) (by decide) (by decide) (by decide) (by decide)).2⟩

end Kosync

